import Mathlib

/-!
Shallow embedding of src/main.py, a single-symbol Bybit spot trading bot.

Prices are modelled as rationals: the Python code parses exchange price
strings into floats, and every property at issue is an exact arithmetic
identity, so the rational value of each price stands in for the float.

The mutable fields of the long-lived TradingBot object become a BotState
record that is threaded explicitly.  Each async method becomes a function
of the current state plus the environment events that occur while the
method is suspended: the order-book messages delivered during a wait
(the mid argument) and the outcome of the order-confirmation wait
(a WaitOutcome: either the gateway message that woke the waiter, or a
timeout).  The configuration constants read from the environment
(SYMBOL, TARGET_PROFIT_PERCENT, AMOUNT) become a Config parameter.
-/

namespace TgTradeBot

/-- Python truthiness of a cached price slot as the source tests it with
"not orderbook.get(...)": the value None and the float 0.0 are falsy,
every other float (negative floats included) is truthy. -/
def pyFalsy : Option ℚ → Bool
  | none => true
  | some x => x == 0

/-- The quote cache self.orderbook_data, a dict with keys bid and ask,
initialised to None/None and replaced wholesale by handle_orderbook. -/
structure Quote where
  bid : Option ℚ
  ask : Option ℚ
deriving DecidableEq

/-- The active-position record built in open_position (main.py lines
145-151): order id, symbol, amount, entry price and target price. -/
structure Position where
  order_id : String
  symbol : String
  amount : ℚ
  entry_price : ℚ
  target_price : ℚ
deriving DecidableEq

/-- An order-confirmation message from the gateway, as far as the source
reads it: retCode (0 means success), retMsg (the reason text, which the
source never reads), and data.orderId. -/
structure OrderResp where
  retCode : Int
  retMsg : String
  orderId : String
deriving DecidableEq

/-- The mutable fields of the TradingBot object (main.py lines 36-43). -/
structure BotState where
  active_position : Option Position
  orderbook_data : Quote
  orderbook_event : Bool
  is_subscribed : Bool
  order_response_event : Bool
  order_response : Option OrderResp
deriving DecidableEq

/-- Configuration constants loaded from the environment (lines 20-22). -/
structure Config where
  symbol : String
  target_profit_percent : ℚ
  amount : ℚ
deriving DecidableEq

/-- An order-book websocket message, reduced to the fields the handler
reads: the bid level list b and the ask level list a, each entry a
(price, size) pair.  A missing key and an empty list are both falsy in
the guard at line 53, so both are modelled by the empty list. -/
structure OBMessage where
  b : List (ℚ × ℚ)
  a : List (ℚ × ℚ)
deriving DecidableEq

/-- handle_orderbook (lines 45-64): if either level list is falsy the
message is logged and discarded; otherwise the cache dict is replaced
wholesale by a new dict holding the two top-of-book prices, and the
order-book event is set. -/
def handle_orderbook (st : BotState) (msg : OBMessage) : BotState :=
  match msg.b, msg.a with
  | [], _ => st
  | _, [] => st
  | (bid, _) :: _, (ask, _) :: _ =>
      { st with orderbook_data := { bid := some bid, ask := some ask },
                orderbook_event := true }

/-- get_order_book (lines 87-93): returns the current cache. -/
def get_order_book (st : BotState) : Quote :=
  st.orderbook_data

/-- calculate_target_price (lines 95-104). -/
def calculate_target_price (cfg : Config) (entry_price : ℚ) : ℚ :=
  entry_price * (1 + cfg.target_profit_percent / 100)

/-- Order side of a placed order. -/
inductive Side
  | buy
  | sell
deriving DecidableEq

/-- A market-order request as sent to the gateway by place_order. -/
structure Order where
  side : Side
  symbol : String
  qty : ℚ
deriving DecidableEq

/-- The outcome of one wait on order_response_event: either the wait
timed out, or the gateway confirmation that woke the waiter (the
handle_order_response callback stores the message and sets the event). -/
inductive WaitOutcome
  | timeout
  | response (resp : OrderResp)
deriving DecidableEq

/-- Order-book messages delivered while a coroutine is suspended are
applied to the cache in arrival order. -/
def applyUpdates (st : BotState) (msgs : List OBMessage) : BotState :=
  msgs.foldl handle_orderbook st

/-- Result of open_position: the new state, the boolean returned to the
caller, and the list of order requests actually sent to the gateway. -/
structure OpenResult where
  state : BotState
  success : Bool
  orders : List Order
deriving DecidableEq

/-- open_position (lines 106-161).  The local variable orderbook at line
117 captures the current cache dict by reference; handle_orderbook
replaces the shared dict with a fresh one and never mutates the old one
in place, so the captured values are those from capture time.  The mid
messages are the quote updates delivered during the confirmation wait;
they change the shared cache but not the captured dict.  The entry price
at line 144 is read from the captured dict. -/
def open_position (cfg : Config) (st : BotState) (mid : List OBMessage)
    (outcome : WaitOutcome) : OpenResult :=
  let st1 : BotState := { st with is_subscribed := true }
  let orderbook := st1.orderbook_data
  if pyFalsy orderbook.bid || pyFalsy orderbook.ask then
    { state := st1, success := false, orders := [] }
  else
    let st2 : BotState := { st1 with order_response_event := false }
    let buyOrder : Order := { side := Side.buy, symbol := cfg.symbol, qty := cfg.amount }
    let st3 := applyUpdates st2 mid
    match outcome with
    | WaitOutcome.timeout =>
        { state := st3, success := false, orders := [buyOrder] }
    | WaitOutcome.response resp =>
        let st4 : BotState :=
          { st3 with order_response := some resp, order_response_event := true }
        if resp.retCode == 0 then
          let entry_price := orderbook.ask.getD 0
          let pos : Position :=
            { order_id := resp.orderId, symbol := cfg.symbol, amount := cfg.amount,
              entry_price := entry_price,
              target_price := calculate_target_price cfg entry_price }
          { state := { st4 with active_position := some pos }, success := true,
            orders := [buyOrder] }
        else
          { state := st4, success := false, orders := [buyOrder] }

/-- Result of close_position: new state, boolean result, orders sent. -/
structure CloseResult where
  state : BotState
  success : Bool
  orders : List Order
deriving DecidableEq

/-- close_position (lines 196-231): clears the confirmation event,
places a sell order, waits up to 10 seconds; on a confirmation with
retCode 0 it clears active_position and returns True, otherwise it
returns False leaving active_position untouched. -/
def close_position (cfg : Config) (st : BotState) (mid : List OBMessage)
    (outcome : WaitOutcome) : CloseResult :=
  let st1 : BotState := { st with order_response_event := false }
  let sellOrder : Order := { side := Side.sell, symbol := cfg.symbol, qty := cfg.amount }
  let st2 := applyUpdates st1 mid
  match outcome with
  | WaitOutcome.timeout =>
      { state := st2, success := false, orders := [sellOrder] }
  | WaitOutcome.response resp =>
      let st3 : BotState :=
        { st2 with order_response := some resp, order_response_event := true }
      if resp.retCode == 0 then
        { state := { st3 with active_position := none }, success := true,
          orders := [sellOrder] }
      else
        { state := st3, success := false, orders := [sellOrder] }

/-- The fields of the close message sent through the Telegram sink at
lines 182-187, had it ever been built. -/
structure Notif where
  symbol : String
  profit_percent : ℚ
  entry_price : ℚ
  target_price : ℚ
  exit_price : Option ℚ
deriving DecidableEq

/-- Result of one iteration of the monitoring loop body: the new state,
the messages actually delivered to the sink, the orders sent, and
whether the body raised an exception that the handler at line 192
caught (after which the loop sleeps one second and re-checks its
condition). -/
structure MonitorResult where
  state : BotState
  notifs : List Notif
  orders : List Order
  raised : Bool
deriving DecidableEq

/-- One iteration of the while body of monitor_position (lines 166-194),
entered with the loop condition already checked.  On a successful close,
line 179 evaluates self.orderbook_data and then subscripts
self.active_position, but close_position has already set
active_position to None, so the subscript raises TypeError; the
exception is caught at line 192, hence no profit value is computed and
no sink message is sent.  Even in the branch where a position record
were still present, line 181 sets active_position to None before line
183 subscripts it for the message text, which would raise as well. -/
def monitor_position_body (cfg : Config) (st : BotState) (mid : List OBMessage)
    (outcome : WaitOutcome) : MonitorResult :=
  let order_book := get_order_book st
  if pyFalsy order_book.bid then
    { state := st, notifs := [], orders := [], raised := false }
  else
    let current_price := order_book.bid.getD 0
    match st.active_position with
    | none =>
        { state := st, notifs := [], orders := [], raised := true }
    | some pos =>
        if pos.target_price ≤ current_price then
          let r := close_position cfg st mid outcome
          if r.success then
            match r.state.active_position with
            | none =>
                { state := r.state, notifs := [], orders := r.orders, raised := true }
            | some pos2 =>
                let st5 : BotState := { r.state with active_position := none }
                { state := st5, notifs := [], orders := r.orders, raised := true }
          else
            { state := r.state, notifs := [], orders := r.orders, raised := false }
        else
          { state := st, notifs := [], orders := [], raised := false }

/-- Reply of the /status command handler (lines 273-299). -/
inductive StatusReply
  | no_position
  | cannot_get_price
  | position_report (symbol : String)
      (entry_price target_price current_price current_profit : ℚ)
deriving DecidableEq

/-- status_command (lines 273-299): with a position present and a
truthy cached bid it reports the position and the unrealized profit,
with a falsy bid it reports that the price is unavailable, and with no
position it reports that none is open.  It never mutates state. -/
def status_command (st : BotState) : StatusReply :=
  match st.active_position with
  | none => StatusReply.no_position
  | some pos =>
      let order_book := get_order_book st
      if pyFalsy order_book.bid then StatusReply.cannot_get_price
      else
        let current_price := order_book.bid.getD 0
        StatusReply.position_report pos.symbol pos.entry_price pos.target_price
          current_price ((current_price / pos.entry_price - 1) * 100)

/-- Reply of the /trade command handler (lines 302-324). -/
inductive TradeReply
  | already_open
  | opened (symbol : String) (entry_price target_price : ℚ)
  | could_not_open
deriving DecidableEq

/-- Result of a full /trade command run without interleaving. -/
structure TradeResult where
  state : BotState
  reply : TradeReply
  orders : List Order
deriving DecidableEq

/-- trade_command (lines 302-324), run to completion with no other task
interleaved: if active_position is truthy the request is rejected with
an already-open reply; otherwise open_position runs, and the reply
reports either the new position or a failure. -/
def trade_command (cfg : Config) (st : BotState) (mid : List OBMessage)
    (outcome : WaitOutcome) : TradeResult :=
  match st.active_position with
  | some _ => { state := st, reply := TradeReply.already_open, orders := [] }
  | none =>
      let r := open_position cfg st mid outcome
      if r.success then
        match r.state.active_position with
        | some pos =>
            { state := r.state,
              reply := TradeReply.opened pos.symbol pos.entry_price pos.target_price,
              orders := r.orders }
        | none =>
            { state := r.state, reply := TradeReply.could_not_open, orders := r.orders }
      else
        { state := r.state, reply := TradeReply.could_not_open, orders := r.orders }

/-- Observable result of the first phase of a /trade command. -/
inductive Phase1Result
  | rejected
  | no_data
  | waiting (captured : Quote)
deriving DecidableEq

/-- State and result after the first phase of a /trade command. -/
structure Phase1Out where
  state : BotState
  result : Phase1Result
  orders : List Order
deriving DecidableEq

/-- First phase of a /trade command: lines 306-308 (the guard on
active_position) followed by open_position up to placing the buy order
(lines 113-134).  The phase ends where the coroutine suspends at the
confirmation wait (line 138); at the awaits (the reply send at line
310, the sleep at line 114 and the wait at line 138) the event loop may
schedule another task, in particular another /trade command. -/
def tradePhase1 (cfg : Config) (st : BotState) : Phase1Out :=
  match st.active_position with
  | some _ => { state := st, result := Phase1Result.rejected, orders := [] }
  | none =>
      let st1 : BotState := { st with is_subscribed := true }
      let orderbook := st1.orderbook_data
      if pyFalsy orderbook.bid || pyFalsy orderbook.ask then
        { state := st1, result := Phase1Result.no_data, orders := [] }
      else
        let st2 : BotState := { st1 with order_response_event := false }
        { state := st2, result := Phase1Result.waiting orderbook,
          orders := [{ side := Side.buy, symbol := cfg.symbol, qty := cfg.amount }] }

/-- State and boolean result after the second phase of a /trade. -/
structure Phase2Out where
  state : BotState
  success : Bool
deriving DecidableEq

/-- Second phase of a /trade command: the resumption after the
confirmation wait (lines 138-157), using the quote captured in the
first phase as the entry reference. -/
def tradePhase2 (cfg : Config) (st : BotState) (captured : Quote)
    (outcome : WaitOutcome) : Phase2Out :=
  match outcome with
  | WaitOutcome.timeout => { state := st, success := false }
  | WaitOutcome.response resp =>
      let st1 : BotState :=
        { st with order_response := some resp, order_response_event := true }
      if resp.retCode == 0 then
        let entry_price := captured.ask.getD 0
        let pos : Position :=
          { order_id := resp.orderId, symbol := cfg.symbol, amount := cfg.amount,
            entry_price := entry_price,
            target_price := calculate_target_price cfg entry_price }
        { state := { st1 with active_position := some pos }, success := true }
      else
        { state := st1, success := false }

/-- Quote updates never touch the active-position record. -/
lemma handle_orderbook_active_position (st : BotState) (msg : OBMessage) :
    (handle_orderbook st msg).active_position = st.active_position := by
  unfold handle_orderbook
  rcases msg with ⟨b, a⟩
  cases b <;> cases a <;> simp

/-- A batch of quote updates never touches the active-position record. -/
lemma applyUpdates_active_position (st : BotState) (msgs : List OBMessage) :
    (applyUpdates st msgs).active_position = st.active_position := by
  induction msgs generalizing st with
  | nil => rfl
  | cons m ms ih =>
      simp only [applyUpdates, List.foldl_cons] at *
      rw [ih, handle_orderbook_active_position]

/-- Quote updates depend only on the message, so they leave the other
fields of two states equally related. -/
lemma handle_orderbook_orderbook_data (st st' : BotState) (msg : OBMessage)
    (h : st'.orderbook_data = st.orderbook_data) :
    (handle_orderbook st' msg).orderbook_data = (handle_orderbook st msg).orderbook_data := by
  unfold handle_orderbook
  rcases msg with ⟨b, a⟩
  cases b <;> cases a <;> simp [h]

/-- The sequential open_position agrees with running the two /trade
phases in direct succession: the second phase picks up the state left
by the first (after the quote updates delivered during the wait) and
the quote captured by the first. -/
lemma open_position_eq_phases (cfg : Config) (st : BotState) (mid : List OBMessage)
    (outcome : WaitOutcome) (q : Quote) (h : st.active_position = none)
    (hw : (tradePhase1 cfg st).result = Phase1Result.waiting q) :
    open_position cfg st mid outcome =
      { state := (tradePhase2 cfg (applyUpdates (tradePhase1 cfg st).state mid) q
          outcome).state,
        success := (tradePhase2 cfg (applyUpdates (tradePhase1 cfg st).state mid) q
          outcome).success,
        orders := (tradePhase1 cfg st).orders } := by
  unfold tradePhase1 at hw ⊢
  rw [h] at hw ⊢
  simp only at hw ⊢
  by_cases hf : (pyFalsy st.orderbook_data.bid || pyFalsy st.orderbook_data.ask) = true
  · simp [hf] at hw
  · simp only [hf] at hw ⊢
    simp only [Bool.not_eq_true] at hf
    have hq : q = st.orderbook_data := by
      simp [hf] at hw
      exact hw.symm
    subst hq
    unfold open_position tradePhase2
    simp [hf]
    cases outcome with
    | timeout => rw [h]
    | response resp =>
        rw [h]
        by_cases hr : resp.retCode = 0 <;> simp [hr]

/-- A configuration with a one percent profit target and unit amount. -/
def cfg0 : Config :=
  { symbol := "BTCUSDT", target_profit_percent := 1, amount := 1 }

/-- An idle state with a valid cached quote, bid 100 and ask 101. -/
def st_ready : BotState :=
  { active_position := none,
    orderbook_data := { bid := some 100, ask := some 101 },
    orderbook_event := true, is_subscribed := true,
    order_response_event := false, order_response := none }

/-- The position the bot builds from ask 101 at a one percent target. -/
def pos0 : Position :=
  { order_id := "ORD-A", symbol := "BTCUSDT", amount := 1,
    entry_price := 101, target_price := 10201 / 100 }

/-- An open state holding pos0, with the quote at bid 103 and ask 104,
so the bid has reached the target price. -/
def st_open : BotState :=
  { active_position := some pos0,
    orderbook_data := { bid := some 103, ask := some 104 },
    orderbook_event := true, is_subscribed := true,
    order_response_event := true,
    order_response := some { retCode := 0, retMsg := "OK", orderId := "ORD-A" } }

/-- With an unset or zero price cached, open_position fails before the
gateway is called: no order is sent and the state is returned with only
the subscription flag set. -/
lemma open_position_no_data (cfg : Config) (st : BotState) (mid : List OBMessage)
    (outcome : WaitOutcome)
    (h : pyFalsy st.orderbook_data.bid = true ∨ pyFalsy st.orderbook_data.ask = true) :
    open_position cfg st mid outcome =
      { state := { st with is_subscribed := true }, success := false, orders := [] } := by
  unfold open_position
  rcases h with h | h <;> simp [h]

/-- On a confirmation timeout or a non-zero retCode, open_position
returns False and leaves the active-position record as it was. -/
lemma open_position_failure (cfg : Config) (st : BotState) (mid : List OBMessage)
    (outcome : WaitOutcome)
    (hfail : outcome = WaitOutcome.timeout ∨
      ∃ resp, outcome = WaitOutcome.response resp ∧ resp.retCode ≠ 0) :
    (open_position cfg st mid outcome).success = false ∧
    (open_position cfg st mid outcome).state.active_position = st.active_position := by
  unfold open_position
  by_cases hf : (pyFalsy st.orderbook_data.bid || pyFalsy st.orderbook_data.ask) = true
  · simp [hf]
  · simp only [hf]
    rcases hfail with h | ⟨resp, h, hr⟩ <;> subst h
    · simp [applyUpdates_active_position]
    · simp [hr, applyUpdates_active_position]

/-- On a confirmation timeout or a non-zero retCode, close_position
returns False, leaves the active-position record as it was, and has
sent exactly one sell order. -/
lemma close_position_failure (cfg : Config) (st : BotState) (mid : List OBMessage)
    (outcome : WaitOutcome)
    (hfail : outcome = WaitOutcome.timeout ∨
      ∃ resp, outcome = WaitOutcome.response resp ∧ resp.retCode ≠ 0) :
    (close_position cfg st mid outcome).success = false ∧
    (close_position cfg st mid outcome).state.active_position = st.active_position ∧
    (close_position cfg st mid outcome).orders =
      [{ side := Side.sell, symbol := cfg.symbol, qty := cfg.amount }] := by
  unfold close_position
  rcases hfail with h | ⟨resp, h, hr⟩ <;> subst h
  · simp [applyUpdates_active_position]
  · simp [hr, applyUpdates_active_position]

/-- close_position either leaves the active-position record untouched
or clears it; it never replaces it with a different record. -/
lemma close_position_active_position (cfg : Config) (st : BotState)
    (mid : List OBMessage) (outcome : WaitOutcome) :
    (close_position cfg st mid outcome).state.active_position = st.active_position ∨
    (close_position cfg st mid outcome).state.active_position = none := by
  unfold close_position
  cases outcome with
  | timeout => left; simp [applyUpdates_active_position]
  | response resp =>
      by_cases hr : resp.retCode = 0
      · right; simp [hr]
      · left; simp [hr, applyUpdates_active_position]

/-- The monitoring-loop body either leaves the active-position record
untouched or clears it; it never replaces it with a different one. -/
lemma monitor_body_active_position (cfg : Config) (st : BotState)
    (mid : List OBMessage) (outcome : WaitOutcome) :
    (monitor_position_body cfg st mid outcome).state.active_position = st.active_position ∨
    (monitor_position_body cfg st mid outcome).state.active_position = none := by
  unfold monitor_position_body
  by_cases hf : pyFalsy (get_order_book st).bid = true
  · left; simp [hf]
  · simp only [hf, Bool.false_eq_true, if_false]
    cases hp : st.active_position with
    | none => left; simp [hp]
    | some pos =>
        simp only
        by_cases ht : pos.target_price ≤ (get_order_book st).bid.getD 0
        · simp only [ht, if_true]
          by_cases hs : (close_position cfg st mid outcome).success = true
          · simp only [hs, if_true]
            cases hc : (close_position cfg st mid outcome).state.active_position with
            | none => right; simp [hc]
            | some pos2 => right; simp [hc]
          · simp only [Bool.not_eq_true] at hs
            simp only [hs, Bool.false_eq_true, if_false]
            rcases close_position_active_position cfg st mid outcome with h | h
            · left; exact h.trans hp
            · right; exact h
        · left; simp [ht, hp]

/-- When open_position fails, the /trade handler replies with the same
could-not-open message whatever the cause of the failure was. -/
lemma trade_command_reply_of_failure (cfg : Config) (st : BotState)
    (mid : List OBMessage) (outcome : WaitOutcome)
    (hp : st.active_position = none)
    (hs : (open_position cfg st mid outcome).success = false) :
    (trade_command cfg st mid outcome).reply = TradeReply.could_not_open := by
  unfold trade_command
  rw [hp]
  simp [hs]

/-- C5 (counterexample): an update carrying a present but non-positive
bid value is not rejected: with bid 100 / ask 101 cached, the message
with top-of-book bid 0 and ask 2 overwrites the cache, so the
previously cached quote is not left unchanged, contrary to the claim
that a missing or non-positive bid/ask is discarded. -/
theorem C5_zero_bid_overwrites_cache :
    (handle_orderbook st_ready { b := [(0, 5)], a := [(2, 5)] }).orderbook_data =
      { bid := some 0, ask := some 2 } ∧
    (handle_orderbook st_ready { b := [(0, 5)], a := [(2, 5)] }).orderbook_data ≠
      st_ready.orderbook_data := by
  norm_num [handle_orderbook, st_ready]

/-- C5 (amended): an update whose bid or ask level list is missing or
empty is logged and discarded, leaving the previously cached quote
completely unchanged; a present non-positive price value, however, is
not validated and overwrites the cache. -/
theorem C5_missing_side_leaves_cache_unchanged (st : BotState) (msg : OBMessage)
    (h : msg.b = [] ∨ msg.a = []) :
    handle_orderbook st msg = st := by
  unfold handle_orderbook
  rcases msg with ⟨b, a⟩
  rcases h with h | h <;> subst h
  · cases a <;> rfl
  · cases b <;> rfl

/-- C5 (witness): a message with an empty bid side leaves the open
state untouched. -/
theorem C5_missing_side_witness :
    handle_orderbook st_open { b := [], a := [(5, 1)] } = st_open :=
  C5_missing_side_leaves_cache_unchanged st_open { b := [], a := [(5, 1)] } (Or.inl rfl)

/-- C6: for every valid pair with positive bid and ask, after the update
is applied the read returns exactly that pair; the cache is replaced
wholesale from the one message, so no mix of a new bid with a stale ask
is ever observable. -/
theorem C6_update_then_read (st : BotState) (bid ask sz1 sz2 : ℚ)
    (hb : 0 < bid) (ha : 0 < ask) :
    get_order_book (handle_orderbook st { b := [(bid, sz1)], a := [(ask, sz2)] }) =
      { bid := some bid, ask := some ask } := by
  rfl

/-- C6 (witness): updating with bid 100 and ask 101 reads back exactly
that pair. -/
theorem C6_update_then_read_witness :
    get_order_book (handle_orderbook st_open { b := [(100, 1)], a := [(101, 1)] }) =
      { bid := some 100, ask := some 101 } :=
  C6_update_then_read st_open 100 101 1 1 (by norm_num) (by norm_num)

/-- C7: an open attempt whose buy confirmation times out or is rejected
by the gateway returns False, and the active-position record, absent
before the call, is still absent afterwards: the machine is back in
Idle and no Position was created. -/
theorem C7_failed_open_returns_to_idle (cfg : Config) (st : BotState)
    (mid : List OBMessage) (outcome : WaitOutcome)
    (hp : st.active_position = none)
    (hfail : outcome = WaitOutcome.timeout ∨
      ∃ resp, outcome = WaitOutcome.response resp ∧ resp.retCode ≠ 0) :
    (open_position cfg st mid outcome).state.active_position = none ∧
    (open_position cfg st mid outcome).success = false := by
  have h := open_position_failure cfg st mid outcome hfail
  exact ⟨h.2.trans hp, h.1⟩

/-- C7 (witness): a timed-out open from the ready state creates no
position and reports failure. -/
theorem C7_failed_open_witness :
    (open_position cfg0 st_ready [] WaitOutcome.timeout).state.active_position = none ∧
    (open_position cfg0 st_ready [] WaitOutcome.timeout).success = false :=
  C7_failed_open_returns_to_idle cfg0 st_ready [] WaitOutcome.timeout rfl (Or.inl rfl)

/-- C1 (counterexample): open while Opening is not rejected.  Task A
runs the first phase of a /trade from the ready state: the guard sees
no active position, a buy order is placed, and A suspends at the
confirmation wait, so the machine is in the Opening state.  A second
/trade command, task B, dispatched during that wait, runs its own
first phase on the resulting state: it is not rejected and places a
second buy order.  A then completes with the first confirmation and
records its Position; B completes with the second confirmation and
overwrites that Position with its own.  So an open made while Opening
neither fails nor leaves the existing flow's Position intact. -/
theorem C1_open_while_opening_not_rejected :
    (tradePhase1 cfg0 st_ready).result =
      Phase1Result.waiting { bid := some 100, ask := some 101 } ∧
    (tradePhase1 cfg0 (tradePhase1 cfg0 st_ready).state).result ≠
      Phase1Result.rejected ∧
    (tradePhase1 cfg0 (tradePhase1 cfg0 st_ready).state).orders =
      [{ side := Side.buy, symbol := "BTCUSDT", qty := 1 }] ∧
    (tradePhase2 cfg0 (tradePhase1 cfg0 (tradePhase1 cfg0 st_ready).state).state
        { bid := some 100, ask := some 101 }
        (WaitOutcome.response
          { retCode := 0, retMsg := "OK", orderId := "ORD-A" })).state.active_position =
      some { order_id := "ORD-A", symbol := "BTCUSDT", amount := 1,
             entry_price := 101, target_price := 10201 / 100 } ∧
    (tradePhase2 cfg0
        (tradePhase2 cfg0 (tradePhase1 cfg0 (tradePhase1 cfg0 st_ready).state).state
          { bid := some 100, ask := some 101 }
          (WaitOutcome.response
            { retCode := 0, retMsg := "OK", orderId := "ORD-A" })).state
        { bid := some 100, ask := some 101 }
        (WaitOutcome.response
          { retCode := 0, retMsg := "OK", orderId := "ORD-B" })).state.active_position =
      some { order_id := "ORD-B", symbol := "BTCUSDT", amount := 1,
             entry_price := 101, target_price := 10201 / 100 } := by
  have h2 : (tradePhase1 cfg0 (tradePhase1 cfg0 st_ready).state).result =
      Phase1Result.waiting { bid := some 100, ask := some 101 } := by
    norm_num [tradePhase1, st_ready, cfg0, pyFalsy]
  refine ⟨?_, ?_, ?_, ?_, ?_⟩
  · norm_num [tradePhase1, st_ready, cfg0, pyFalsy]
  · rw [h2]; exact fun hcon => nomatch hcon
  · norm_num [tradePhase1, st_ready, cfg0, pyFalsy]
  · norm_num [tradePhase1, tradePhase2, st_ready, cfg0, calculate_target_price, pyFalsy]
  · norm_num [tradePhase1, tradePhase2, st_ready, cfg0, calculate_target_price, pyFalsy]

/-- C1 (amended): while a Position record is held, which is the case in
both the Open and the Closing states, a /trade command is rejected with
the already-open reply, mutates nothing, and sends no order, so no
second Position can be created from those states; the rejection is a
plain already-open message, not a typed InvalidState error.  While in
Opening, however, the record is still absent and the guard does not
reject a concurrent open, as the counterexample shows. -/
theorem C1_open_rejected_when_position_held (cfg : Config) (st : BotState)
    (mid : List OBMessage) (outcome : WaitOutcome) (p : Position)
    (h : st.active_position = some p) :
    trade_command cfg st mid outcome =
      { state := st, reply := TradeReply.already_open, orders := [] } ∧
    tradePhase1 cfg st =
      { state := st, result := Phase1Result.rejected, orders := [] } := by
  constructor
  · unfold trade_command; rw [h]
  · unfold tradePhase1; rw [h]

/-- C1 (witness): with pos0 held, a /trade is rejected unchanged. -/
theorem C1_open_rejected_witness :
    trade_command cfg0 st_open [] WaitOutcome.timeout =
      { state := st_open, reply := TradeReply.already_open, orders := [] } :=
  (C1_open_rejected_when_position_held cfg0 st_open [] WaitOutcome.timeout pos0 rfl).1

/-- C2 (code evaluated at the failing input): the monitoring loop sees
bid 103 at or above the target 102.01 and calls close_position, which
is confirmed with retCode 0 and clears the Position; back in the loop
the profit computation subscripts the already-cleared active_position,
which raises TypeError before any profit value exists, so the loop's
exception handler fires and no message ever reaches the sink.  The
state does end with the Position cleared. -/
theorem C2_successful_close_crashes_before_notifying :
    monitor_position_body cfg0 st_open []
        (WaitOutcome.response { retCode := 0, retMsg := "OK", orderId := "ORD-B" }) =
      { state :=
          { active_position := none,
            orderbook_data := { bid := some 103, ask := some 104 },
            orderbook_event := true, is_subscribed := true,
            order_response_event := true,
            order_response := some { retCode := 0, retMsg := "OK", orderId := "ORD-B" } },
        notifs := [], orders := [{ side := Side.sell, symbol := "BTCUSDT", qty := 1 }],
        raised := true } := by
  have hle : (10201 / 100 : ℚ) ≤ 103 := by norm_num
  norm_num [monitor_position_body, close_position, applyUpdates, get_order_book,
    st_open, pos0, cfg0, pyFalsy, hle]

/-- C3 (counterexample): at the call site the failure kinds are not
distinguishable.  From the ready state, an open whose confirmation
times out and an open rejected by the gateway with reason text produce
the same could-not-open reply and the same boolean False, and likewise
for close; nothing carries the gateway reason to the caller. -/
theorem C3_timeout_and_rejection_indistinguishable :
    (trade_command cfg0 st_ready [] WaitOutcome.timeout).reply =
      TradeReply.could_not_open ∧
    (trade_command cfg0 st_ready []
        (WaitOutcome.response
          { retCode := 10001, retMsg := "insufficient balance", orderId := "" })).reply =
      TradeReply.could_not_open ∧
    (open_position cfg0 st_ready [] WaitOutcome.timeout).success =
      (open_position cfg0 st_ready []
        (WaitOutcome.response
          { retCode := 10001, retMsg := "insufficient balance", orderId := "" })).success ∧
    (close_position cfg0 st_open [] WaitOutcome.timeout).success =
      (close_position cfg0 st_open []
        (WaitOutcome.response
          { retCode := 10001, retMsg := "insufficient balance", orderId := "" })).success := by
  refine ⟨?_, ?_, ?_, ?_⟩ <;>
    norm_num [trade_command, open_position, close_position, applyUpdates,
      st_ready, st_open, cfg0, pyFalsy]

/-- C3 (amended): open_position and close_position return only a
boolean; a confirmation timeout, a gateway rejection (whatever its
reason text) and missing market data all surface to the /trade caller
as the same could-not-open reply, the kinds being distinguished only in
the log. -/
theorem C3_all_failures_collapse (cfg : Config) (st : BotState)
    (mid : List OBMessage) (hp : st.active_position = none) :
    (trade_command cfg st mid WaitOutcome.timeout).reply = TradeReply.could_not_open ∧
    (∀ resp : OrderResp, resp.retCode ≠ 0 →
        (trade_command cfg st mid (WaitOutcome.response resp)).reply =
          TradeReply.could_not_open) ∧
    ((pyFalsy st.orderbook_data.bid = true ∨ pyFalsy st.orderbook_data.ask = true) →
        ∀ outcome, (trade_command cfg st mid outcome).reply =
          TradeReply.could_not_open) := by
  refine ⟨?_, ?_, ?_⟩
  · exact trade_command_reply_of_failure cfg st mid WaitOutcome.timeout hp
      (open_position_failure cfg st mid WaitOutcome.timeout (Or.inl rfl)).1
  · intro resp hr
    exact trade_command_reply_of_failure cfg st mid (WaitOutcome.response resp) hp
      (open_position_failure cfg st mid (WaitOutcome.response resp)
        (Or.inr ⟨resp, rfl, hr⟩)).1
  · intro h outcome
    refine trade_command_reply_of_failure cfg st mid outcome hp ?_
    rw [open_position_no_data cfg st mid outcome h]

/-- C3 (witness): from the ready state a timed-out open yields the
could-not-open reply. -/
theorem C3_all_failures_collapse_witness :
    (trade_command cfg0 st_ready [] WaitOutcome.timeout).reply =
      TradeReply.could_not_open :=
  (C3_all_failures_collapse cfg0 st_ready [] rfl).1

/-- C4: on a filled buy, the Position is created with entry price equal
to the ask captured at request time, whatever quote updates arrive
between the request and the confirmation, and with target price equal
to that entry price times (1 + target_profit_percent / 100), computed
at creation; afterwards no operation ever replaces the record with a
recomputed one: close_position and the monitoring body either leave
the record untouched or clear it. -/
theorem C4_target_price_once_from_request_ask (cfg : Config) (st : BotState)
    (mid : List OBMessage) (resp : OrderResp)
    (hb : pyFalsy st.orderbook_data.bid = false)
    (ha : pyFalsy st.orderbook_data.ask = false)
    (hok : resp.retCode = 0) :
    (open_position cfg st mid (WaitOutcome.response resp)).state.active_position =
      some { order_id := resp.orderId, symbol := cfg.symbol, amount := cfg.amount,
             entry_price := st.orderbook_data.ask.getD 0,
             target_price :=
               st.orderbook_data.ask.getD 0 * (1 + cfg.target_profit_percent / 100) } ∧
    (∀ st' : BotState, ∀ mid' : List OBMessage, ∀ o' : WaitOutcome,
        (close_position cfg st' mid' o').state.active_position = st'.active_position ∨
        (close_position cfg st' mid' o').state.active_position = none) ∧
    (∀ st' : BotState, ∀ mid' : List OBMessage, ∀ o' : WaitOutcome,
        (monitor_position_body cfg st' mid' o').state.active_position =
          st'.active_position ∨
        (monitor_position_body cfg st' mid' o').state.active_position = none) := by
  refine ⟨?_, close_position_active_position cfg, monitor_body_active_position cfg⟩
  unfold open_position
  simp [hb, ha, hok, calculate_target_price]

/-- C4 (witness): from the ready state with ask 101, even though a
quote update to bid 200 / ask 210 arrives during the confirmation wait,
the filled position records entry 101 and target 102.01. -/
theorem C4_target_price_witness :
    (open_position cfg0 st_ready [{ b := [(200, 1)], a := [(210, 1)] }]
        (WaitOutcome.response
          { retCode := 0, retMsg := "OK", orderId := "X" })).state.active_position =
      some { order_id := "X", symbol := "BTCUSDT", amount := 1,
             entry_price := 101, target_price := 10201 / 100 } := by
  have h := (C4_target_price_once_from_request_ask cfg0 st_ready
      [{ b := [(200, 1)], a := [(210, 1)] }]
      { retCode := 0, retMsg := "OK", orderId := "X" }
      (by norm_num [st_ready, pyFalsy]) (by norm_num [st_ready, pyFalsy]) rfl).1
  rw [h]
  norm_num [st_ready, cfg0]

/-- C8: when the close attempt triggered by the monitoring loop fails,
by confirmation timeout or gateway rejection, exactly one sell order
was sent, the Position record is left with every field unchanged, no
message reaches the sink, no exception escapes, and the record is
still present so the loop condition holds and the next tick
re-evaluates the close condition. -/
theorem C8_failed_close_keeps_position (cfg : Config) (st : BotState)
    (mid : List OBMessage) (outcome : WaitOutcome) (p : Position) (b : ℚ)
    (hp : st.active_position = some p)
    (hb : st.orderbook_data.bid = some b) (hb0 : b ≠ 0)
    (htrig : p.target_price ≤ b)
    (hfail : outcome = WaitOutcome.timeout ∨
      ∃ resp, outcome = WaitOutcome.response resp ∧ resp.retCode ≠ 0) :
    (monitor_position_body cfg st mid outcome).state.active_position = some p ∧
    (monitor_position_body cfg st mid outcome).notifs = [] ∧
    (monitor_position_body cfg st mid outcome).raised = false ∧
    (monitor_position_body cfg st mid outcome).orders =
      [{ side := Side.sell, symbol := cfg.symbol, qty := cfg.amount }] := by
  have hc := close_position_failure cfg st mid outcome hfail
  unfold monitor_position_body
  have hfb : pyFalsy (get_order_book st).bid = false := by
    simp [get_order_book, pyFalsy, hb, hb0]
  simp only [hfb, Bool.false_eq_true, if_false, hp]
  have hcur : (get_order_book st).bid.getD 0 = b := by
    simp [get_order_book, hb]
  rw [hcur]
  simp only [htrig, if_true]
  simp only [hc.1, Bool.false_eq_true, if_false]
  refine ⟨hc.2.1.trans hp, ?_, ?_, hc.2.2⟩ <;> trivial

/-- C8 (witness): from the open state with bid 103 above the target
102.01, a timed-out close leaves pos0 in place with no sink message
and a single sell attempt recorded. -/
theorem C8_failed_close_witness :
    (monitor_position_body cfg0 st_open [] WaitOutcome.timeout).state.active_position =
      some pos0 ∧
    (monitor_position_body cfg0 st_open [] WaitOutcome.timeout).notifs = [] ∧
    (monitor_position_body cfg0 st_open [] WaitOutcome.timeout).raised = false ∧
    (monitor_position_body cfg0 st_open [] WaitOutcome.timeout).orders =
      [{ side := Side.sell, symbol := "BTCUSDT", qty := 1 }] :=
  C8_failed_close_keeps_position cfg0 st_open [] WaitOutcome.timeout pos0 103
    rfl rfl (by norm_num) (by norm_num [pos0]) (Or.inl rfl)

/-- C9: both execution paths clear the confirmation event before the
order is sent, so a response stored by a previous call can never stand
in for the current call's confirmation: the caller-visible outcome of
open_position and close_position, their effect on the Position record
and the orders they send are all independent of the waiting state
(order_response_event and order_response) left behind by earlier
calls, and at the moment a /trade starts its confirmation wait the
event is clear. -/
theorem C9_stale_confirmation_never_mistaken (cfg : Config) (st st' : BotState)
    (mid : List OBMessage) (outcome : WaitOutcome)
    (h1 : st'.active_position = st.active_position)
    (h2 : st'.orderbook_data = st.orderbook_data) :
    ((open_position cfg st' mid outcome).success =
        (open_position cfg st mid outcome).success ∧
      (open_position cfg st' mid outcome).state.active_position =
        (open_position cfg st mid outcome).state.active_position ∧
      (open_position cfg st' mid outcome).orders =
        (open_position cfg st mid outcome).orders) ∧
    ((close_position cfg st' mid outcome).success =
        (close_position cfg st mid outcome).success ∧
      (close_position cfg st' mid outcome).state.active_position =
        (close_position cfg st mid outcome).state.active_position ∧
      (close_position cfg st' mid outcome).orders =
        (close_position cfg st mid outcome).orders) ∧
    (∀ q, (tradePhase1 cfg st).result = Phase1Result.waiting q →
        (tradePhase1 cfg st).state.order_response_event = false) := by
  refine ⟨?_, ?_, ?_⟩
  · unfold open_position
    by_cases hf : (pyFalsy st.orderbook_data.bid || pyFalsy st.orderbook_data.ask) = true
    · simp [h2, hf, h1]
    · cases outcome with
      | timeout => simp [h2, hf, applyUpdates_active_position, h1]
      | response resp =>
          by_cases hr : resp.retCode = 0
          · simp [h2, hf, hr]
          · simp [h2, hf, hr, applyUpdates_active_position, h1]
  · unfold close_position
    cases outcome with
    | timeout => simp [applyUpdates_active_position, h1]
    | response resp =>
        by_cases hr : resp.retCode = 0
        · simp [hr]
        · simp [hr, applyUpdates_active_position, h1]
  · intro q hq
    unfold tradePhase1 at hq ⊢
    cases hp : st.active_position with
    | some p => rw [hp] at hq; simp at hq
    | none =>
        rw [hp] at hq
        by_cases hf : pyFalsy st.orderbook_data.bid = true ∨
          pyFalsy st.orderbook_data.ask = true
        · simp [hf] at hq
        · simp [hf]

/-- C9 (witness): a stale set event with a stored stale success
response does not change the outcome of a timed-out open from the
ready state. -/
theorem C9_stale_confirmation_witness :
    (open_position cfg0
        { st_ready with
          order_response_event := true,
          order_response := some { retCode := 0, retMsg := "OK", orderId := "OLD" } }
        [] WaitOutcome.timeout).success =
      (open_position cfg0 st_ready [] WaitOutcome.timeout).success :=
  ((C9_stale_confirmation_never_mistaken cfg0 st_ready
      { st_ready with
        order_response_event := true,
        order_response := some { retCode := 0, retMsg := "OK", orderId := "OLD" } }
      [] WaitOutcome.timeout rfl rfl).1).1

/-- C10: a cached price of zero is handled by the same falsiness test
as an unset cache, so a zero price never triggers a trade decision:
with the bid or ask falsy (unset or zero) open_position fails sending
no gateway order; with the bid falsy and a position held, the status
handler reports the price unavailable; with the bid falsy the
monitoring body changes nothing, sends nothing, and simply retries;
and the falsiness test literally identifies zero with unset. -/
theorem C10_zero_price_is_unset (cfg : Config) (st : BotState)
    (mid : List OBMessage) (outcome : WaitOutcome) :
    ((pyFalsy st.orderbook_data.bid = true ∨ pyFalsy st.orderbook_data.ask = true) →
        (open_position cfg st mid outcome).success = false ∧
        (open_position cfg st mid outcome).orders = []) ∧
    (pyFalsy st.orderbook_data.bid = true →
        (∀ p, st.active_position = some p →
          status_command st = StatusReply.cannot_get_price) ∧
        monitor_position_body cfg st mid outcome =
          { state := st, notifs := [], orders := [], raised := false }) ∧
    pyFalsy (some (0 : ℚ)) = pyFalsy (none : Option ℚ) := by
  refine ⟨?_, ?_, rfl⟩
  · intro h
    rw [open_position_no_data cfg st mid outcome h]
    exact ⟨rfl, rfl⟩
  · intro h
    constructor
    · intro p hp
      unfold status_command
      rw [hp]
      simp [get_order_book, h]
    · unfold monitor_position_body
      simp [get_order_book, h]

/-- C10 (witness): with bid cached as zero and a position held, an open
attempt sends no order and the status handler reports the price
unavailable. -/
theorem C10_zero_price_witness :
    (open_position cfg0
        { st_open with orderbook_data := { bid := some 0, ask := some 104 } }
        [] WaitOutcome.timeout).orders = [] ∧
    status_command
        { st_open with orderbook_data := { bid := some 0, ask := some 104 } } =
      StatusReply.cannot_get_price := by
  have h := C10_zero_price_is_unset cfg0
      { st_open with orderbook_data := { bid := some 0, ask := some 104 } }
      [] WaitOutcome.timeout
  exact ⟨(h.1 (Or.inl (by simp [pyFalsy]))).2, (h.2.1 (by simp [pyFalsy])).1 pos0 rfl⟩

end TgTradeBot
